import Mathlib

/-!
Verification of the drizzle-cube-plugin MCP gateway (`src/index.ts`).

The development shallowly embeds the configuration resolver
(`normalizeServerUrl`, `loadConfigFile`, `loadConfig`), the HTTP helper
(`apiRequest`), the lazily connected secondary-protocol client
(`getMcpClient`) and the tool dispatcher (the `CallToolRequestSchema`
handler) as pure Lean functions.  Effectful interactions (the file
system, environment variables, `fetch`, the MCP client) are supplied by
explicit oracle structures, and thrown JavaScript exceptions are
modelled with `Except String`.
-/

namespace DrizzleCube

/-- A JSON value, as produced by `JSON.parse` / consumed by
`JSON.stringify` in the TypeScript source.  Numbers are restricted to
integers, which covers every numeric value the gateway itself ever
constructs or inspects. -/
inductive Json where
  | null
  | bool (b : Bool)
  | num (n : Int)
  | str (s : String)
  | arr (elems : List Json)
  | obj (fields : List (String × Json))
deriving Repr

/-- JavaScript truthiness of a JSON value (`undefined` is represented by
`Option.none` at use sites, never by a `Json` constructor). -/
def jsTruthy : Json → Bool
  | .null => false
  | .bool b => b
  | .num n => n != 0
  | .str s => s != ""
  | .arr _ => true
  | .obj _ => true

/-- Property lookup `v.k` on a JSON value: a key lookup on objects,
`undefined` (i.e. `none`) on everything else. -/
def Json.getField : Json → String → Option Json
  | .obj fields, k => (fields.find? (fun f => f.1 == k)).map (·.2)
  | _, _ => none

/-- Four-digit lowercase hex rendering used by `JSON.stringify` for
control characters (`\u00XX`). -/
def hex4 (n : Nat) : String :=
  let d := fun (k : Nat) => Nat.digitChar (n / 16 ^ k % 16)
  String.mk [d 3, d 2, d 1, d 0]

/-- Escape a single character the way `JSON.stringify` does inside a
string literal. -/
def escapeJsonChar (c : Char) : String :=
  if c = '"' then "\\\""
  else if c = '\\' then "\\\\"
  else if c = '\x08' then "\\b"
  else if c = '\x0c' then "\\f"
  else if c = '\n' then "\\n"
  else if c = '\r' then "\\r"
  else if c = '\t' then "\\t"
  else if c.toNat < 32 then "\\u" ++ hex4 c.toNat
  else String.singleton c

/-- `JSON.stringify` rendering of a string literal, quotes included. -/
def escapeJsonString (s : String) : String :=
  "\"" ++ String.join (s.data.map escapeJsonChar) ++ "\""

/-- `n` spaces, the indentation unit of `JSON.stringify(v, null, 2)`. -/
def indentStr (n : Nat) : String :=
  String.mk (List.replicate n ' ')

mutual

/-- `JSON.stringify(v, null, 2)` at nesting depth `ind` (the source
always calls it at top level, `ind = 0`). -/
def stringifyAt (ind : Nat) (v : Json) : String :=
  match v with
  | .null => "null"
  | .bool b => if b then "true" else "false"
  | .num n => toString n
  | .str s => escapeJsonString s
  | .arr [] => "[]"
  | .arr (x :: xs) =>
      "[\n" ++ stringifyElems (ind + 2) x xs ++ "\n" ++ indentStr ind ++ "]"
  | .obj [] => "\x7b\x7d"
  | .obj (f :: fs) =>
      "\x7b\n" ++ stringifyFields (ind + 2) f fs ++ "\n" ++ indentStr ind ++ "\x7d"
termination_by sizeOf v
decreasing_by all_goals (simp_wf <;> omega)

/-- Comma-and-newline separated array elements, each on its own indented
line. -/
def stringifyElems (ind : Nat) (x : Json) (rest : List Json) : String :=
  match rest with
  | [] => indentStr ind ++ stringifyAt ind x
  | y :: ys => indentStr ind ++ stringifyAt ind x ++ ",\n" ++ stringifyElems ind y ys
termination_by 1 + sizeOf x + sizeOf rest
decreasing_by all_goals (simp_wf <;> omega)

/-- Comma-and-newline separated object entries, each `"key": value` on
its own indented line. -/
def stringifyFields (ind : Nat) (f : String × Json) (rest : List (String × Json)) : String :=
  match f, rest with
  | (k, v), [] => indentStr ind ++ escapeJsonString k ++ ": " ++ stringifyAt ind v
  | (k, v), g :: gs =>
      indentStr ind ++ escapeJsonString k ++ ": " ++ stringifyAt ind v
        ++ ",\n" ++ stringifyFields ind g gs
termination_by 1 + sizeOf f + sizeOf rest
decreasing_by all_goals (simp_wf <;> omega)

end

/-- Top-level `JSON.stringify(v, null, 2)` as used throughout the tool
handlers. -/
def stringifyPretty (v : Json) : String := stringifyAt 0 v

/-! ## Configuration resolver -/

/-- Resolved runtime settings (`interface Config`). -/
structure Config where
  serverUrl : String
  apiToken : String
deriving Repr, DecidableEq

/-- Raw partial configuration from one source (`interface RawConfig`);
`none` models an absent (`undefined`) field. -/
structure RawConfig where
  serverUrl : Option String
  apiUrl : Option String
  apiToken : Option String
deriving Repr, DecidableEq

/-- The characters of the legacy versioned-API suffix `/cubejs-api/v1`. -/
def cubeSuffix : List Char := "/cubejs-api/v1".data

/-- The characters of the legacy suffix with a trailing slash. -/
def cubeSuffixSlash : List Char := "/cubejs-api/v1/".data

/-- Model of `normalizeServerUrl`:
`url.replace(/\/cubejs-api\/v1\/?$/, '')`.  The regex is anchored at the
end of the string with a greedy optional trailing slash, so it removes
one trailing `/cubejs-api/v1/` (15 characters) if present, else one
trailing `/cubejs-api/v1` (14 characters) if present, else nothing. -/
def normalizeServerUrl (url : String) : String :=
  if cubeSuffixSlash.isSuffixOf url.data then
    String.mk (url.data.take (url.data.length - cubeSuffixSlash.length))
  else if cubeSuffix.isSuffixOf url.data then
    String.mk (url.data.take (url.data.length - cubeSuffix.length))
  else url

/-- What the file system holds at one config path: no file, a file whose
read or JSON-parse fails, or a parsed file. -/
inductive ConfigFile where
  | absent
  | invalid
  | parsed (raw : RawConfig)
deriving Repr, DecidableEq

/-- Model of `loadConfigFile`: returns the raw config (or `null` both
when the file is missing and when reading/parsing throws) together with
the number of warning lines logged by its `catch` block. -/
def loadConfigFile : ConfigFile → Option RawConfig × Nat
  | .absent => (none, 0)
  | .invalid => (none, 1)
  | .parsed raw => (some raw, 0)

/-- The three environment variables read by `loadConfig`; `none` models
an unset variable. -/
structure EnvVars where
  serverUrl : Option String
  apiUrl : Option String
  apiToken : Option String
deriving Repr, DecidableEq

/-- JavaScript truthiness of a possibly-`undefined` string: defined and
non-empty. -/
def truthyStr : Option String → Bool
  | some s => s != ""
  | none => false

/-- The JavaScript `a || b || ... || dflt` chain over possibly-undefined
strings: the first truthy candidate, else the default literal. -/
def firstTruthy (dflt : String) : List (Option String) → String
  | [] => dflt
  | o :: rest => if truthyStr o then o.getD "" else firstTruthy dflt rest

/-- Result of `loadConfig` together with its observable logging side
effects: the warning counts of the two `loadConfigFile` calls. -/
structure LoadResult where
  config : Config
  projectWarnings : Nat
  globalWarnings : Nat
deriving Repr, DecidableEq

/-- Model of `loadConfig`: merge the project file, the global file and
the environment variables; take the first truthy URL in strict priority
order (project `serverUrl`, project `apiUrl`, global `serverUrl`,
global `apiUrl`, env `serverUrl`, env `apiUrl`, literal default);
normalize it; take the first truthy token (project, global, env, empty
string). -/
def loadConfig (projectFile globalFile : ConfigFile) (env : EnvVars) : LoadResult :=
  let projectLoaded := loadConfigFile projectFile
  let globalLoaded := loadConfigFile globalFile
  let projectConfig := projectLoaded.1
  let globalConfig := globalLoaded.1
  let envConfig : RawConfig := ⟨env.serverUrl, env.apiUrl, env.apiToken⟩
  let rawUrl := firstTruthy "http://localhost:3001"
    [projectConfig.bind RawConfig.serverUrl,
     projectConfig.bind RawConfig.apiUrl,
     globalConfig.bind RawConfig.serverUrl,
     globalConfig.bind RawConfig.apiUrl,
     envConfig.serverUrl,
     envConfig.apiUrl]
  let serverUrl := normalizeServerUrl rawUrl
  let apiToken := firstTruthy ""
    [projectConfig.bind RawConfig.apiToken,
     globalConfig.bind RawConfig.apiToken,
     envConfig.apiToken]
  { config := { serverUrl := serverUrl, apiToken := apiToken }
    projectWarnings := projectLoaded.2
    globalWarnings := globalLoaded.2 }

/-! ## Tool dispatcher -/

/-- HTTP method used by `apiRequest`. -/
inductive Method where
  | get
  | post
deriving Repr, DecidableEq

/-- An upstream HTTP response as observed through `fetch`: the status
code, the body read as text (`response.text()`), and the body parsed as
JSON (`response.json()`, which may itself reject). -/
structure HttpResp where
  status : Nat
  bodyText : String
  bodyJson : Except String Json

/-- `response.ok`: status in the 200–299 range. -/
def HttpResp.ok (r : HttpResp) : Bool :=
  decide (200 ≤ r.status ∧ r.status < 300)

/-- One observable outbound interaction of the gateway: an HTTP fetch,
an MCP connection attempt, or a remote MCP tool call. -/
inductive Event where
  | fetchCall (url : String) (method : Method) (headers : List (String × String))
      (body : Option Json)
  | connectAttempt
  | mcpToolCall (remoteName : String) (callArgs : Json)

/-- The external world the gateway talks to: the behaviour of `fetch`,
of `Client.connect` and of `Client.callTool`.  An `Except.error` models
a thrown/rejected JavaScript error with the given message. -/
structure World where
  fetch : String → Method → Option Json → Except String HttpResp
  connect : Except String Unit
  callTool : String → Json → Except String Json

/-- Process facts probed by the `drizzle_cube_config` handler:
`process.cwd()`, `homedir()`, `existsSync` on the two config paths and
presence of the three environment variables. -/
structure SysInfo where
  cwd : String
  home : String
  projectConfigExists : Bool
  globalConfigExists : Bool
  envServerUrlSet : Bool
  envApiUrlSet : Bool
  envTokenSet : Bool

/-- One entry of the `content` array of a tool-call response.  `text`
holds the JavaScript value assigned to the `text` property (a string in
every branch except the MCP first-item extraction, whose `as string`
cast does not convert at runtime). -/
structure ContentItem where
  type : String
  text : Json

/-- The uniform response envelope returned by every tool handler;
`isError` is `none` when the field is absent. -/
structure Envelope where
  content : List ContentItem
  isError : Option Bool

/-- The success envelope wrapping a pretty-printed JSON result. -/
def jsonTextEnvelope (v : Json) : Envelope :=
  { content := [{ type := "text", text := .str (stringifyPretty v) }], isError := none }

/-- The error envelope produced by the dispatcher's `catch` block. -/
def errorEnvelope (msg : String) : Envelope :=
  { content := [{ type := "text", text := .str ("Error: " ++ msg) }], isError := some true }

/-- Request headers built by `apiRequest`: JSON content type plus a
bearer header when a token is configured. -/
def buildHeaders (cfg : Config) : List (String × String) :=
  [("Content-Type", "application/json")] ++
    (if cfg.apiToken == "" then [] else [("Authorization", "Bearer " ++ cfg.apiToken)])

/-- Model of `apiRequest`: concatenate the base URL and the endpoint,
send the body only when it is truthy (`body ? JSON.stringify(body) :
undefined`), throw `API error (<status>): <body text>` on a non-2xx
status, otherwise return the parsed JSON body.  The event list records
the single `fetch` performed. -/
def apiRequest (w : World) (cfg : Config) (endpoint : String) (method : Method)
    (body : Option Json) : Except String Json × List Event :=
  let url := cfg.serverUrl ++ endpoint
  let sent := body.bind (fun b => if jsTruthy b then some b else none)
  let ev := [Event.fetchCall url method (buildHeaders cfg) sent]
  match w.fetch url method sent with
  | .error e => (.error e, ev)
  | .ok resp =>
    if resp.ok then (resp.bodyJson, ev)
    else (.error ("API error (" ++ toString resp.status ++ "): " ++ resp.bodyText), ev)

/-- Model of `getMcpClient` acting on the module-level `mcpClient`
variable (the `Option Unit` state): return the cached client if set,
otherwise attempt a connection.  The source assigns `mcpClient` before
awaiting `connect`, so on a failed connect the state is left non-null
and is only cleared by the calling tool's `catch` block. -/
def getMcpClient (w : World) (s : Option Unit) : Except String Unit × Option Unit × List Event :=
  match s with
  | some _ => (.ok (), some (), [])
  | none =>
    match w.connect with
    | .ok _ => (.ok (), some (), [.connectAttempt])
    | .error e => (.error e, some (), [.connectAttempt])

/-- JavaScript property access `v[k]` on an arbitrary value: throws a
`TypeError` on `null`, yields the field (or `undefined`, i.e. `none`) on
objects, and `undefined` on other primitives. -/
def Json.accessField : Json → String → Except String (Option Json)
  | .null, k => .error ("Cannot read properties of null (reading '" ++ k ++ "')")
  | .obj fields, k => .ok ((fields.find? (fun f => f.1 == k)).map (·.2))
  | _, _ => .ok none

/-- Access `args.k` where `args` is `request.params.arguments`
(possibly `undefined`): throws a `TypeError` when `args` is
`undefined`. -/
def argField (args : Option Json) (k : String) : Except String (Option Json) :=
  match args with
  | none => .error ("Cannot read properties of undefined (reading '" ++ k ++ "')")
  | some a => a.accessField k

/-- A JS object literal field that is simply dropped when the value is
`undefined` (the serialized form the remote side receives). -/
def optField (k : String) (v : Option Json) : List (String × Json) :=
  match v with
  | some j => [(k, j)]
  | none => []

/-- The result-unwrapping shared by the three MCP-proxied tool handlers:
read `result.content`; if it is a non-empty array whose first item is an
object carrying a `text` property, answer with that text; checking
`'text' in firstItem` throws when the first item is `null` (its
`typeof` is `'object'`); otherwise fall back to pretty-printing the
whole result. -/
def extractMcpEnvelope (result : Json) : Except String Envelope :=
  match result.accessField "content" with
  | .error e => .error e
  | .ok contentOpt =>
    match contentOpt with
    | some (.arr (first :: _)) =>
      match first with
      | .null => .error "Cannot use 'in' operator to search for 'text' in null"
      | .obj fields =>
        match (fields.find? (fun f => f.1 == "text")).map (·.2) with
        | some v => .ok { content := [{ type := "text", text := v }], isError := none }
        | none => .ok (jsonTextEnvelope result)
      | _ => .ok (jsonTextEnvelope result)
    | _ => .ok (jsonTextEnvelope result)

/-- The shared body of the three MCP-proxied tool cases (`load`,
`discover`, `validate`): acquire the lazily connected client, call the
remote tool, unwrap the result; on any error the inner `catch` nulls
the cached client before rethrowing. -/
def mcpProxyCall (w : World) (s : Option Unit) (remoteName : String) (callArgs : Json) :
    Except String Envelope × Option Unit × List Event :=
  match getMcpClient w s with
  | (.error e, _, ev) => (.error e, none, ev)
  | (.ok _, s1, ev) =>
    let ev2 := ev ++ [Event.mcpToolCall remoteName callArgs]
    match w.callTool remoteName callArgs with
    | .error e => (.error e, none, ev2)
    | .ok result =>
      match extractMcpEnvelope result with
      | .error e => (.error e, none, ev2)
      | .ok env => (.ok env, s1, ev2)

/-- The `status` object assembled by the `drizzle_cube_config` handler. -/
def configStatusJson (cfg : Config) (sys : SysInfo) : Json :=
  let projectConfigPath := sys.cwd ++ "/.drizzle-cube.json"
  let globalConfigPath := sys.home ++ "/.drizzle-cube/config.json"
  Json.obj
    [("serverUrl", .str cfg.serverUrl),
     ("tokenConfigured", .bool (cfg.apiToken != "")),
     ("endpoints", .obj
       [("cubeApi", .str (cfg.serverUrl ++ "/cubejs-api/v1")),
        ("mcpApi", .str (cfg.serverUrl ++ "/mcp"))]),
     ("configSources", .obj
       [("projectConfig", if sys.projectConfigExists then .str projectConfigPath else .null),
        ("globalConfig", if sys.globalConfigExists then .str globalConfigPath else .null),
        ("environmentVariables", .obj
          [("DRIZZLE_CUBE_SERVER_URL", .bool sys.envServerUrlSet),
           ("DRIZZLE_CUBE_API_URL", .bool sys.envApiUrlSet),
           ("DRIZZLE_CUBE_API_TOKEN", .bool sys.envTokenSet)])]),
     ("help", .obj
       [("projectConfig",
         .str "Create .drizzle-cube.json with \x7b \"serverUrl\": \"http://localhost:3001\" \x7d"),
        ("globalConfig",
         .str ("Create " ++ globalConfigPath
           ++ " with \x7b \"serverUrl\": \"http://localhost:3001\" \x7d")),
        ("envVars",
         .str "Set DRIZZLE_CUBE_SERVER_URL and DRIZZLE_CUBE_API_TOKEN environment variables")])]

/-- The names of the eight statically declared tools, in declaration
order. -/
def declaredToolNames : List String :=
  ["drizzle_cube_meta", "drizzle_cube_dry_run", "drizzle_cube_explain",
   "drizzle_cube_load", "drizzle_cube_batch", "drizzle_cube_config",
   "drizzle_cube_discover", "drizzle_cube_validate"]

/-- The three tools served through the secondary-protocol MCP client. -/
def mcpProxiedTools : List String :=
  ["drizzle_cube_load", "drizzle_cube_discover", "drizzle_cube_validate"]

/-- The `try` block of the `CallToolRequestSchema` handler: the `switch`
over the tool name.  Returns the result (or the thrown error), the new
cached-client state and the outbound events. -/
def handleInner (w : World) (cfg : Config) (sys : SysInfo) (s : Option Unit)
    (name : String) (args : Option Json) :
    Except String Envelope × Option Unit × List Event :=
  match name with
  | "drizzle_cube_meta" =>
    let r := apiRequest w cfg "/cubejs-api/v1/meta" .get none
    (r.1.map jsonTextEnvelope, s, r.2)
  | "drizzle_cube_dry_run" =>
    match argField args "query" with
    | .error e => (.error e, s, [])
    | .ok query =>
      let r := apiRequest w cfg "/cubejs-api/v1/dry-run" .post query
      (r.1.map jsonTextEnvelope, s, r.2)
  | "drizzle_cube_explain" =>
    match argField args "query" with
    | .error e => (.error e, s, [])
    | .ok query =>
      let r := apiRequest w cfg "/cubejs-api/v1/explain" .post query
      (r.1.map jsonTextEnvelope, s, r.2)
  | "drizzle_cube_load" =>
    match argField args "query" with
    | .error e => (.error e, s, [])
    | .ok query => mcpProxyCall w s "load" (Json.obj (optField "query" query))
  | "drizzle_cube_batch" =>
    match argField args "queries" with
    | .error e => (.error e, s, [])
    | .ok queries =>
      let r := apiRequest w cfg "/cubejs-api/v1/batch" .post
        (some (Json.obj (optField "queries" queries)))
      (r.1.map jsonTextEnvelope, s, r.2)
  | "drizzle_cube_config" =>
    (.ok (jsonTextEnvelope (configStatusJson cfg sys)), s, [])
  | "drizzle_cube_discover" =>
    match argField args "topic" with
    | .error e => (.error e, s, [])
    | .ok topic =>
      match argField args "intent" with
      | .error e => (.error e, s, [])
      | .ok intent =>
        mcpProxyCall w s "discover"
          (Json.obj (optField "topic" topic ++ optField "intent" intent))
  | "drizzle_cube_validate" =>
    match argField args "query" with
    | .error e => (.error e, s, [])
    | .ok query => mcpProxyCall w s "validate" (Json.obj (optField "query" query))
  | _ => (.error ("Unknown tool: " ++ name), s, [])

/-- The full `CallToolRequestSchema` handler: the `try` block above with
the dispatcher-level `catch` converting any thrown error into the
uniform error envelope.  Total by construction: no error escapes. -/
def handleToolCall (w : World) (cfg : Config) (sys : SysInfo) (s : Option Unit)
    (name : String) (args : Option Json) : Envelope × Option Unit × List Event :=
  match handleInner w cfg sys s name args with
  | (.ok env, s1, ev) => (env, s1, ev)
  | (.error msg, s1, ev) => (errorEnvelope msg, s1, ev)

/-! ## Auxiliary definitions for the statements -/

/-- The uniform envelope contract: exactly one content item, of type
`text`; either no `isError` field, or `isError: true` together with an
`Error: `-prefixed message text. -/
def Envelope.uniform (e : Envelope) : Prop :=
  e.content.map ContentItem.type = ["text"] ∧
  (e.isError = none ∨ (e.isError = some true ∧
    ∃ msg, e.content.map ContentItem.text = [Json.str ("Error: " ++ msg)]))

/-- Replace a defined-but-empty string field by an absent one (for the
truthiness-vs-presence statements). -/
def scrubField (o : Option String) : Option String :=
  if o = some "" then none else o

/-- Scrub every field of a raw config source. -/
def scrubRaw (r : RawConfig) : RawConfig :=
  ⟨scrubField r.serverUrl, scrubField r.apiUrl, scrubField r.apiToken⟩

/-- Scrub a config file's parsed contents. -/
def scrubFile : ConfigFile → ConfigFile
  | .parsed r => .parsed (scrubRaw r)
  | f => f

/-- Scrub the three environment variables. -/
def scrubEnv (env : EnvVars) : EnvVars :=
  ⟨scrubField env.serverUrl, scrubField env.apiUrl, scrubField env.apiToken⟩

/-- The URL priority chain written from the spec's words (§4.1 step 4):
project current-name, then project legacy-name, then global
current-name, then global legacy-name, then env current-name, then env
legacy-name, then the hardcoded default — each candidate taken when it
is available (defined and non-empty). -/
def specUrlPriority (project global : Option RawConfig) (env : EnvVars) : String :=
  if truthyStr (project.bind RawConfig.serverUrl) then
    (project.bind RawConfig.serverUrl).getD ""
  else if truthyStr (project.bind RawConfig.apiUrl) then
    (project.bind RawConfig.apiUrl).getD ""
  else if truthyStr (global.bind RawConfig.serverUrl) then
    (global.bind RawConfig.serverUrl).getD ""
  else if truthyStr (global.bind RawConfig.apiUrl) then
    (global.bind RawConfig.apiUrl).getD ""
  else if truthyStr env.serverUrl then
    env.serverUrl.getD ""
  else if truthyStr env.apiUrl then
    env.apiUrl.getD ""
  else "http://localhost:3001"

/-- A test double whose fetch always answers 400 / `bad request`. -/
def badRequestWorld : World :=
  { fetch := fun _ _ _ =>
      .ok { status := 400, bodyText := "bad request", bodyJson := .error "Unexpected token" }
    connect := .ok ()
    callTool := fun _ _ => .ok .null }

/-- A test double whose fetch always answers 200 with JSON body
containing the single field `a = 1`. -/
def okJsonWorld : World :=
  { fetch := fun _ _ _ =>
      .ok { status := 200, bodyText := "\x7b\"a\":1\x7d", bodyJson := .ok (.obj [("a", .num 1)]) }
    connect := .ok ()
    callTool := fun _ _ => .ok .null }

/-- A forced-disconnect test double: every connection attempt and every
remote call is refused. -/
def refusedWorld : World :=
  { fetch := fun _ _ _ => .error "fetch failed"
    connect := .error "ECONNREFUSED"
    callTool := fun _ _ => .error "not connected" }

/-- A concrete resolved config for the witness instances. -/
def defaultConfig : Config :=
  { serverUrl := "http://localhost:3001", apiToken := "" }

/-- Concrete process facts for the witness instances. -/
def defaultSys : SysInfo :=
  { cwd := "/work", home := "/root", projectConfigExists := false,
    globalConfigExists := false, envServerUrlSet := false,
    envApiUrlSet := false, envTokenSet := false }

/-! ## Helper lemmas -/

theorem truthyStr_scrubField (o : Option String) :
    truthyStr (scrubField o) = truthyStr o := by
  rcases o with _ | s
  · rfl
  · by_cases h : s = ""
    · subst h; rfl
    · simp [scrubField, truthyStr, h]

theorem scrubField_of_truthy (o : Option String) (h : truthyStr o = true) :
    scrubField o = o := by
  rcases o with _ | s
  · rfl
  · have hs : s ≠ "" := by
      intro hs; subst hs; simp [truthyStr] at h
    simp [scrubField, hs]

theorem firstTruthy_scrub (dflt : String) (l : List (Option String)) :
    firstTruthy dflt (l.map scrubField) = firstTruthy dflt l := by
  induction l with
  | nil => rfl
  | cons o rest ih =>
    simp only [List.map_cons, firstTruthy, truthyStr_scrubField]
    by_cases h : truthyStr o = true
    · simp [h, scrubField_of_truthy o h]
    · simp only [h]
      simp at h
      simp [h, ih]

theorem loadConfigFile_scrub_serverUrl (f : ConfigFile) :
    (loadConfigFile (scrubFile f)).1.bind RawConfig.serverUrl
      = scrubField ((loadConfigFile f).1.bind RawConfig.serverUrl) := by
  cases f <;> rfl

theorem loadConfigFile_scrub_apiUrl (f : ConfigFile) :
    (loadConfigFile (scrubFile f)).1.bind RawConfig.apiUrl
      = scrubField ((loadConfigFile f).1.bind RawConfig.apiUrl) := by
  cases f <;> rfl

theorem loadConfigFile_scrub_apiToken (f : ConfigFile) :
    (loadConfigFile (scrubFile f)).1.bind RawConfig.apiToken
      = scrubField ((loadConfigFile f).1.bind RawConfig.apiToken) := by
  cases f <;> rfl

theorem not_slash_suffix_append (p : List Char) :
    cubeSuffixSlash.isSuffixOf (p ++ cubeSuffix) = false := by
  rw [← Bool.not_eq_true]
  intro h
  rw [List.isSuffixOf_iff_suffix] at h
  have h14 : cubeSuffix <:+ (p ++ cubeSuffix) := List.suffix_append p cubeSuffix
  have hsub : cubeSuffix <:+ cubeSuffixSlash :=
    List.suffix_of_suffix_length_le h14 h (by decide)
  exact absurd hsub (by decide)

theorem normalize_append_plain (p : String) :
    normalizeServerUrl (p ++ "/cubejs-api/v1") = p := by
  unfold normalizeServerUrl
  have hd : (p ++ "/cubejs-api/v1").data = p.data ++ cubeSuffix := String.data_append ..
  have h1 : cubeSuffixSlash.isSuffixOf (p.data ++ cubeSuffix) = false :=
    not_slash_suffix_append p.data
  have h2 : cubeSuffix.isSuffixOf (p.data ++ cubeSuffix) = true := by
    rw [List.isSuffixOf_iff_suffix]; exact List.suffix_append _ _
  rw [hd, h1, h2]
  simp only [if_true, if_false, Bool.false_eq_true]
  have hlen : (p.data ++ cubeSuffix).length - cubeSuffix.length = p.data.length := by
    simp [List.length_append]
  rw [hlen, List.take_left]

theorem normalize_append_slash (p : String) :
    normalizeServerUrl (p ++ "/cubejs-api/v1/") = p := by
  unfold normalizeServerUrl
  have hd : (p ++ "/cubejs-api/v1/").data = p.data ++ cubeSuffixSlash := String.data_append ..
  have h1 : cubeSuffixSlash.isSuffixOf (p.data ++ cubeSuffixSlash) = true := by
    rw [List.isSuffixOf_iff_suffix]; exact List.suffix_append _ _
  rw [hd, h1]
  simp only [if_true]
  have hlen : (p.data ++ cubeSuffixSlash).length - cubeSuffixSlash.length = p.data.length := by
    simp [List.length_append]
  rw [hlen, List.take_left]

theorem normalize_no_suffix (v : String)
    (h1 : cubeSuffixSlash.isSuffixOf v.data = false)
    (h2 : cubeSuffix.isSuffixOf v.data = false) :
    normalizeServerUrl v = v := by
  unfold normalizeServerUrl
  rw [h1, h2]
  simp

theorem jsonTextEnvelope_uniform (v : Json) : (jsonTextEnvelope v).uniform :=
  ⟨rfl, Or.inl rfl⟩

theorem errorEnvelope_uniform (msg : String) : (errorEnvelope msg).uniform :=
  ⟨rfl, Or.inr ⟨rfl, msg, rfl⟩⟩

theorem except_map_ok {α β : Type} (f : α → β) (x : Except String α) (b : β)
    (h : x.map f = .ok b) : ∃ a, x = .ok a ∧ b = f a := by
  cases x with
  | error e => simp [Except.map] at h
  | ok a => simp [Except.map] at h; exact ⟨a, rfl, h.symm⟩

theorem extractMcpEnvelope_uniform (result : Json) (env : Envelope)
    (h : extractMcpEnvelope result = .ok env) : env.uniform := by
  unfold extractMcpEnvelope at h
  repeat' split at h
  all_goals (try (cases h))
  all_goals (first | exact ⟨rfl, Or.inl rfl⟩ | exact jsonTextEnvelope_uniform result)

theorem extractMcpEnvelope_isError (result : Json) (env : Envelope)
    (h : extractMcpEnvelope result = .ok env) : env.isError = none := by
  unfold extractMcpEnvelope at h
  repeat' split at h
  all_goals (try (cases h))
  all_goals rfl

theorem mcpProxyCall_ok_uniform (w : World) (s : Option Unit) (remote : String)
    (ca : Json) (env : Envelope) (s' : Option Unit) (ev : List Event)
    (h : mcpProxyCall w s remote ca = (.ok env, s', ev)) : env.uniform := by
  rcases hget : getMcpClient w s with ⟨gres, gs, gev⟩
  cases gres with
  | error e => simp [mcpProxyCall, hget] at h
  | ok u =>
    cases hcall : w.callTool remote ca with
    | error e => simp [mcpProxyCall, hget, hcall] at h
    | ok result =>
      cases hex : extractMcpEnvelope result with
      | error e => simp [mcpProxyCall, hget, hcall, hex] at h
      | ok env0 =>
        simp [mcpProxyCall, hget, hcall, hex] at h
        exact h.1 ▸ extractMcpEnvelope_uniform result env0 hex

theorem mcpProxyCall_ok_isError (w : World) (s : Option Unit) (remote : String)
    (ca : Json) (env : Envelope) (s' : Option Unit) (ev : List Event)
    (h : mcpProxyCall w s remote ca = (.ok env, s', ev)) : env.isError = none := by
  rcases hget : getMcpClient w s with ⟨gres, gs, gev⟩
  cases gres with
  | error e => simp [mcpProxyCall, hget] at h
  | ok u =>
    cases hcall : w.callTool remote ca with
    | error e => simp [mcpProxyCall, hget, hcall] at h
    | ok result =>
      cases hex : extractMcpEnvelope result with
      | error e => simp [mcpProxyCall, hget, hcall, hex] at h
      | ok env0 =>
        simp [mcpProxyCall, hget, hcall, hex] at h
        exact h.1 ▸ extractMcpEnvelope_isError result env0 hex

theorem mcpProxyCall_error_snd (w : World) (s : Option Unit) (remote : String)
    (ca : Json) (e : String) (s' : Option Unit) (ev : List Event)
    (h : mcpProxyCall w s remote ca = (.error e, s', ev)) : s' = none := by
  rcases hget : getMcpClient w s with ⟨gres, gs, gev⟩
  cases gres with
  | error e2 => simp [mcpProxyCall, hget] at h; exact h.2.1.symm
  | ok u =>
    cases hcall : w.callTool remote ca with
    | error e2 => simp [mcpProxyCall, hget, hcall] at h; exact h.2.1.symm
    | ok result =>
      cases hex : extractMcpEnvelope result with
      | error e2 => simp [mcpProxyCall, hget, hcall, hex] at h; exact h.2.1.symm
      | ok env0 => simp [mcpProxyCall, hget, hcall, hex] at h

theorem mcpProxyCall_none_connects (w : World) (remote : String) (ca : Json) :
    Event.connectAttempt ∈ (mcpProxyCall w none remote ca).2.2 := by
  cases hc : w.connect with
  | error e => simp [mcpProxyCall, getMcpClient, hc]
  | ok u =>
    cases hcall : w.callTool remote ca with
    | error e => simp [mcpProxyCall, getMcpClient, hc, hcall]
    | ok result =>
      cases hex : extractMcpEnvelope result with
      | error e => simp [mcpProxyCall, getMcpClient, hc, hcall, hex]
      | ok env0 => simp [mcpProxyCall, getMcpClient, hc, hcall, hex]

theorem handleInner_ok_uniform (w : World) (cfg : Config) (sys : SysInfo)
    (s : Option Unit) (name : String) (args : Option Json) (env : Envelope)
    (s' : Option Unit) (ev : List Event)
    (h : handleInner w cfg sys s name args = (.ok env, s', ev)) : env.uniform := by
  unfold handleInner at h
  split at h
  · have h1 := congrArg Prod.fst h
    simp only at h1
    obtain ⟨j, _, hj⟩ := except_map_ok _ _ _ h1
    exact hj ▸ jsonTextEnvelope_uniform j
  · split at h
    · simp at h
    · have h1 := congrArg Prod.fst h
      simp only at h1
      obtain ⟨j, _, hj⟩ := except_map_ok _ _ _ h1
      exact hj ▸ jsonTextEnvelope_uniform j
  · split at h
    · simp at h
    · have h1 := congrArg Prod.fst h
      simp only at h1
      obtain ⟨j, _, hj⟩ := except_map_ok _ _ _ h1
      exact hj ▸ jsonTextEnvelope_uniform j
  · split at h
    · simp at h
    · exact mcpProxyCall_ok_uniform _ _ _ _ _ _ _ h
  · split at h
    · simp at h
    · have h1 := congrArg Prod.fst h
      simp only at h1
      obtain ⟨j, _, hj⟩ := except_map_ok _ _ _ h1
      exact hj ▸ jsonTextEnvelope_uniform j
  · have h1 := congrArg Prod.fst h
    simp only at h1
    cases h1
    exact jsonTextEnvelope_uniform _
  · split at h
    · simp at h
    · split at h
      · simp at h
      · exact mcpProxyCall_ok_uniform _ _ _ _ _ _ _ h
  · split at h
    · simp at h
    · exact mcpProxyCall_ok_uniform _ _ _ _ _ _ _ h
  · simp at h

theorem handleInner_load (w : World) (cfg : Config) (sys : SysInfo) (s : Option Unit)
    (fs : List (String × Json)) :
    handleInner w cfg sys s "drizzle_cube_load" (some (.obj fs))
      = mcpProxyCall w s "load"
          (Json.obj (optField "query" ((fs.find? (fun f => f.1 == "query")).map (·.2)))) := rfl

theorem handleInner_discover (w : World) (cfg : Config) (sys : SysInfo) (s : Option Unit)
    (fs : List (String × Json)) :
    handleInner w cfg sys s "drizzle_cube_discover" (some (.obj fs))
      = mcpProxyCall w s "discover"
          (Json.obj (optField "topic" ((fs.find? (fun f => f.1 == "topic")).map (·.2))
            ++ optField "intent" ((fs.find? (fun f => f.1 == "intent")).map (·.2)))) := rfl

theorem handleInner_validate (w : World) (cfg : Config) (sys : SysInfo) (s : Option Unit)
    (fs : List (String × Json)) :
    handleInner w cfg sys s "drizzle_cube_validate" (some (.obj fs))
      = mcpProxyCall w s "validate"
          (Json.obj (optField "query" ((fs.find? (fun f => f.1 == "query")).map (·.2)))) := rfl

theorem dispatch_via_mcp (w : World) (cfg : Config) (sys : SysInfo)
    (name : String) (argsv : Option Json) (remote : String) (ca : Json)
    (hred : ∀ s0 : Option Unit, handleInner w cfg sys s0 name argsv = mcpProxyCall w s0 remote ca)
    (s : Option Unit) :
    ((handleToolCall w cfg sys s name argsv).1.isError = some true →
      (handleToolCall w cfg sys s name argsv).2.1 = none) ∧
    Event.connectAttempt ∈ (handleToolCall w cfg sys none name argsv).2.2 := by
  constructor
  · intro hiserr
    unfold handleToolCall at hiserr ⊢
    rw [hred s] at hiserr ⊢
    rcases hm : mcpProxyCall w s remote ca with ⟨res, s2, ev⟩
    rw [hm] at hiserr
    cases res with
    | ok env =>
      exfalso
      have hnone := mcpProxyCall_ok_isError w s remote ca env s2 ev hm
      have hiserr2 : env.isError = some true := hiserr
      rw [hnone] at hiserr2
      cases hiserr2
    | error m =>
      exact mcpProxyCall_error_snd w s remote ca m s2 ev hm
  · unfold handleToolCall
    rw [hred none]
    rcases hm : mcpProxyCall w none remote ca with ⟨res, s2, ev⟩
    have hc := mcpProxyCall_none_connects w remote ca
    rw [hm] at hc
    cases res <;> simpa using hc

/-! ## Claim theorems: configuration resolver -/

/-- C3: when the project file, the global file and the environment all
define a (non-empty) URL and token, `loadConfig` resolves both to the
project-tier values — never the global- or environment-tier ones — and,
in general, the resolved URL is the normalization of the first available
candidate in the strict priority order project `serverUrl` → project
`apiUrl` → global `serverUrl` → global `apiUrl` → env `serverUrl` → env
`apiUrl` → hardcoded default (the spec-worded chain `specUrlPriority`). -/
theorem c3_project_tier_priority (pa ga ea : Option String) (pu pt gu gt eu et : String)
    (hpu : pu ≠ "") (hpt : pt ≠ "") :
    ((loadConfig (.parsed ⟨some pu, pa, some pt⟩) (.parsed ⟨some gu, ga, some gt⟩)
        ⟨some eu, ea, some et⟩).config
      = ⟨normalizeServerUrl pu, pt⟩) ∧
    ∀ (pf gf : ConfigFile) (env : EnvVars),
      (loadConfig pf gf env).config.serverUrl
        = normalizeServerUrl
            (specUrlPriority (loadConfigFile pf).1 (loadConfigFile gf).1 env) := by
  constructor
  · unfold loadConfig
    simp [loadConfigFile, firstTruthy, truthyStr, hpu, hpt]
  · intro pf gf env
    rfl

/-- C3 witness: with all three tiers fully populated, the resolved
config carries the project URL (normalized) and the project token. -/
theorem c3_witness :
    (loadConfig (.parsed ⟨some "http://p", some "http://pl", some "pt"⟩)
        (.parsed ⟨some "http://g", some "http://gl", some "gt"⟩)
        ⟨some "http://e", some "http://el", some "et"⟩).config
      = ⟨normalizeServerUrl "http://p", "pt"⟩ :=
  (c3_project_tier_priority (some "http://pl") (some "http://gl") (some "http://el")
    "http://p" "pt" "http://g" "gt" "http://e" "et"
    (by decide) (by decide)).1

/-- C4 counterexample: `normalizeServerUrl` is not idempotent on every
string — stripping one trailing `/cubejs-api/v1` segment can expose a
second one, which a repeated normalization also strips. -/
theorem c4_counterexample :
    normalizeServerUrl (normalizeServerUrl "/cubejs-api/v1/cubejs-api/v1")
      ≠ normalizeServerUrl "/cubejs-api/v1/cubejs-api/v1" := by decide

/-- C4 (amended): `normalizeServerUrl` strips one trailing
`/cubejs-api/v1` or `/cubejs-api/v1/` segment when present and returns
the URL unchanged otherwise; it is idempotent on every URL whose
once-normalized form does not itself end in the versioned suffix
again. -/
theorem c4_strip_once_and_conditional_idempotence (url : String) :
    (∀ p : String, url = p ++ "/cubejs-api/v1" → normalizeServerUrl url = p) ∧
    (∀ p : String, url = p ++ "/cubejs-api/v1/" → normalizeServerUrl url = p) ∧
    (cubeSuffixSlash.isSuffixOf url.data = false →
     cubeSuffix.isSuffixOf url.data = false →
      normalizeServerUrl url = url) ∧
    (cubeSuffixSlash.isSuffixOf (normalizeServerUrl url).data = false →
     cubeSuffix.isSuffixOf (normalizeServerUrl url).data = false →
      normalizeServerUrl (normalizeServerUrl url) = normalizeServerUrl url) := by
  refine ⟨?_, ?_, ?_, ?_⟩
  · intro p hp; subst hp; exact normalize_append_plain p
  · intro p hp; subst hp; exact normalize_append_slash p
  · intro h1 h2; exact normalize_no_suffix url h1 h2
  · intro h1 h2; exact normalize_no_suffix (normalizeServerUrl url) h1 h2

/-- C4 witness: one concrete strip and one concrete idempotent
re-normalization. -/
theorem c4_witness :
    normalizeServerUrl "http://h/cubejs-api/v1" = "http://h" ∧
    normalizeServerUrl (normalizeServerUrl "http://h/cubejs-api/v1")
      = normalizeServerUrl "http://h/cubejs-api/v1" :=
  ⟨(c4_strip_once_and_conditional_idempotence "http://h/cubejs-api/v1").1 "http://h" rfl,
   (c4_strip_once_and_conditional_idempotence "http://h/cubejs-api/v1").2.2.2
     (by decide) (by decide)⟩

/-- C6: with no project file, no global file and none of the three
environment variables set, `loadConfig` does not fail and returns the
hardcoded default base URL and the empty token (logging no warnings). -/
theorem c6_default_config :
    loadConfig .absent .absent ⟨none, none, none⟩
      = ⟨⟨"http://localhost:3001", ""⟩, 0, 0⟩ := by decide

/-- C9: when the project config file exists but fails to read or parse,
`loadConfig` does not raise, logs exactly one warning for that file, and
resolves exactly as if the project tier were absent — falling through to
the global and environment tiers. -/
theorem c9_unparseable_project_falls_through (gf : ConfigFile) (env : EnvVars) :
    (loadConfig .invalid gf env).config = (loadConfig .absent gf env).config ∧
    (loadConfig .invalid gf env).projectWarnings = 1 ∧
    (loadConfig .absent gf env).projectWarnings = 0 :=
  ⟨rfl, rfl, rfl⟩

/-- C10: config resolution selects by truthiness, not by presence —
replacing every defined-but-empty-string field by an absent one changes
nothing, and when every defined field in every source is the empty
string the result is the default URL and the empty token. -/
theorem c10_empty_string_fields_skipped (pf gf : ConfigFile) (env : EnvVars) :
    ((loadConfig (scrubFile pf) (scrubFile gf) (scrubEnv env)).config
      = (loadConfig pf gf env).config) ∧
    (loadConfig (.parsed ⟨some "", some "", some ""⟩)
        (.parsed ⟨some "", some "", some ""⟩) ⟨some "", some "", some ""⟩).config
      = ⟨"http://localhost:3001", ""⟩ := by
  constructor
  · unfold loadConfig
    simp only [scrubEnv, loadConfigFile_scrub_serverUrl, loadConfigFile_scrub_apiUrl,
      loadConfigFile_scrub_apiToken]
    have hurl := firstTruthy_scrub "http://localhost:3001"
      [(loadConfigFile pf).1.bind RawConfig.serverUrl,
       (loadConfigFile pf).1.bind RawConfig.apiUrl,
       (loadConfigFile gf).1.bind RawConfig.serverUrl,
       (loadConfigFile gf).1.bind RawConfig.apiUrl,
       env.serverUrl, env.apiUrl]
    have htok := firstTruthy_scrub ""
      [(loadConfigFile pf).1.bind RawConfig.apiToken,
       (loadConfigFile gf).1.bind RawConfig.apiToken,
       env.apiToken]
    simp only [List.map_cons, List.map_nil] at hurl htok
    rw [hurl, htok]
  · decide

/-! ## Claim theorems: tool dispatcher -/

/-- C1: every dispatched tool call — any name, any argument object, any
upstream behaviour — returns the uniform envelope (one `text` content
item; `isError: true` with an `Error: `-prefixed text exactly on
failure), and since `handleToolCall` is the total catch-wrapping of the
`try` block, no thrown error ever propagates past the dispatch
boundary. -/
theorem c1_dispatch_uniform_envelope (w : World) (cfg : Config) (sys : SysInfo)
    (s : Option Unit) (name : String) (args : Option Json) :
    (handleToolCall w cfg sys s name args).1.uniform ∧
    ∀ msg, (handleInner w cfg sys s name args).1 = .error msg →
      (handleToolCall w cfg sys s name args).1 = errorEnvelope msg := by
  rcases hin : handleInner w cfg sys s name args with ⟨res, s1, ev⟩
  cases res with
  | ok env =>
    have hht : handleToolCall w cfg sys s name args = (env, s1, ev) := by
      unfold handleToolCall; rw [hin]
    constructor
    · rw [hht]
      exact handleInner_ok_uniform w cfg sys s name args env s1 ev hin
    · intro msg hmsg
      simp at hmsg
  | error m =>
    have hht : handleToolCall w cfg sys s name args = (errorEnvelope m, s1, ev) := by
      unfold handleToolCall; rw [hin]
    constructor
    · rw [hht]; exact errorEnvelope_uniform m
    · intro msg hmsg
      simp at hmsg
      subst hmsg
      rw [hht]

/-- C1 witness: a concrete dispatch against a refusing upstream still
returns a uniform envelope. -/
theorem c1_witness :
    (handleToolCall refusedWorld defaultConfig defaultSys (some ())
        "drizzle_cube_load" (some (.obj []))).1.uniform ∧
    ∀ msg, (handleInner refusedWorld defaultConfig defaultSys (some ())
        "drizzle_cube_load" (some (.obj []))).1 = .error msg →
      (handleToolCall refusedWorld defaultConfig defaultSys (some ())
        "drizzle_cube_load" (some (.obj []))).1 = errorEnvelope msg :=
  c1_dispatch_uniform_envelope refusedWorld defaultConfig defaultSys (some ())
    "drizzle_cube_load" (some (.obj []))

/-- C2: for the three secondary-protocol tools, a failure during
connection or during the remote call clears the cached client reference
(the returned state is `none`), and a call entered with a cleared cache
performs a fresh connection attempt. -/
theorem c2_failed_mcp_call_resets_client (w : World) (cfg : Config) (sys : SysInfo)
    (s : Option Unit) (fs : List (String × Json)) (name : String)
    (hmem : name ∈ mcpProxiedTools) :
    ((handleToolCall w cfg sys s name (some (.obj fs))).1.isError = some true →
      (handleToolCall w cfg sys s name (some (.obj fs))).2.1 = none) ∧
    Event.connectAttempt ∈ (handleToolCall w cfg sys none name (some (.obj fs))).2.2 := by
  simp only [mcpProxiedTools, List.mem_cons, List.not_mem_nil, or_false] at hmem
  rcases hmem with h | h | h <;> subst h
  · exact dispatch_via_mcp w cfg sys _ _ "load" _
      (fun s0 => handleInner_load w cfg sys s0 fs) s
  · exact dispatch_via_mcp w cfg sys _ _ "discover" _
      (fun s0 => handleInner_discover w cfg sys s0 fs) s
  · exact dispatch_via_mcp w cfg sys _ _ "validate" _
      (fun s0 => handleInner_validate w cfg sys s0 fs) s

/-- C2 witness: with a refused connection, the concrete `load` call
fails and the cached client state comes back cleared. -/
theorem c2_witness :
    (handleToolCall refusedWorld defaultConfig defaultSys (some ())
        "drizzle_cube_load" (some (.obj []))).1.isError = some true ∧
    (((handleToolCall refusedWorld defaultConfig defaultSys (some ())
        "drizzle_cube_load" (some (.obj []))).1.isError = some true →
      (handleToolCall refusedWorld defaultConfig defaultSys (some ())
        "drizzle_cube_load" (some (.obj []))).2.1 = none) ∧
    Event.connectAttempt ∈ (handleToolCall refusedWorld defaultConfig defaultSys none
        "drizzle_cube_load" (some (.obj []))).2.2) :=
  ⟨rfl,
   c2_failed_mcp_call_resets_client refusedWorld defaultConfig defaultSys (some ()) []
     "drizzle_cube_load" (by decide)⟩

/-- C5: dispatching any tool name outside the declared set yields the
error envelope whose text names the unknown tool, with `isError: true`,
leaving the cached client untouched and performing no upstream call —
never throwing past the dispatcher and never silently succeeding. -/
theorem c5_unknown_tool_error (w : World) (cfg : Config) (sys : SysInfo)
    (s : Option Unit) (args : Option Json) (name : String)
    (h : name ∉ declaredToolNames) :
    handleToolCall w cfg sys s name args
      = (errorEnvelope ("Unknown tool: " ++ name), s, []) ∧
    (errorEnvelope ("Unknown tool: " ++ name)).isError = some true ∧
    (errorEnvelope ("Unknown tool: " ++ name)).content
      = [{ type := "text", text := .str ("Error: Unknown tool: " ++ name) }] := by
  refine ⟨?_, rfl, rfl⟩
  simp only [declaredToolNames, List.mem_cons, List.not_mem_nil, or_false, not_or] at h
  obtain ⟨h1, h2, h3, h4, h5, h6, h7, h8⟩ := h
  have hinner : handleInner w cfg sys s name args
      = (.error ("Unknown tool: " ++ name), s, []) := by
    unfold handleInner
    split <;> simp_all
  unfold handleToolCall
  rw [hinner]

/-- C5 witness: a concrete undeclared name produces the named error
envelope. -/
theorem c5_witness :
    handleToolCall refusedWorld defaultConfig defaultSys none
        "drizzle_cube_bogus" none
      = (errorEnvelope "Unknown tool: drizzle_cube_bogus", none, []) ∧
    (errorEnvelope "Unknown tool: drizzle_cube_bogus").isError = some true ∧
    (errorEnvelope "Unknown tool: drizzle_cube_bogus").content
      = [{ type := "text", text := .str "Error: Unknown tool: drizzle_cube_bogus" }] :=
  c5_unknown_tool_error refusedWorld defaultConfig defaultSys none none
    "drizzle_cube_bogus" (by decide)

/-- C7: a non-2xx upstream HTTP response makes `apiRequest` fail with an
error carrying the status code and the body text verbatim, after exactly
one fetch (no retry), and the `drizzle_cube_meta` tool call surfaces it
as an `isError` envelope containing both. -/
theorem c7_http_error_envelope (w : World) (cfg : Config) (sys : SysInfo)
    (s : Option Unit) (args : Option Json) (resp : HttpResp) (endpoint : String)
    (method : Method) (body : Option Json)
    (hok : resp.ok = false)
    (hmeta : w.fetch (cfg.serverUrl ++ "/cubejs-api/v1/meta") .get none = .ok resp)
    (hgen : w.fetch (cfg.serverUrl ++ endpoint) method
        (body.bind (fun b => if jsTruthy b then some b else none)) = .ok resp) :
    (apiRequest w cfg endpoint method body).1
      = .error ("API error (" ++ toString resp.status ++ "): " ++ resp.bodyText) ∧
    (apiRequest w cfg endpoint method body).2.length = 1 ∧
    (handleToolCall w cfg sys s "drizzle_cube_meta" args).1
      = errorEnvelope ("API error (" ++ toString resp.status ++ "): " ++ resp.bodyText) ∧
    (handleToolCall w cfg sys s "drizzle_cube_meta" args).2.2.length = 1 := by
  have ha : (apiRequest w cfg "/cubejs-api/v1/meta" .get none).1
      = .error ("API error (" ++ toString resp.status ++ "): " ++ resp.bodyText) := by
    simp [apiRequest, hmeta, hok]
  have hi : handleInner w cfg sys s "drizzle_cube_meta" args
      = ((apiRequest w cfg "/cubejs-api/v1/meta" .get none).1.map jsonTextEnvelope, s,
         (apiRequest w cfg "/cubejs-api/v1/meta" .get none).2) := rfl
  refine ⟨?_, ?_, ?_, ?_⟩
  · simp [apiRequest, hgen, hok]
  · simp [apiRequest, hgen, hok]
  · unfold handleToolCall
    rw [hi, ha]
    simp [Except.map]
  · unfold handleToolCall
    rw [hi, ha]
    simp [Except.map, apiRequest, hmeta, hok]

/-- C7 witness: status 400 with body `bad request` yields the error
envelope carrying both, after a single fetch. -/
theorem c7_witness :
    (apiRequest badRequestWorld defaultConfig "/cubejs-api/v1/meta" .get none).1
      = .error "API error (400): bad request" ∧
    (apiRequest badRequestWorld defaultConfig "/cubejs-api/v1/meta" .get none).2.length = 1 ∧
    (handleToolCall badRequestWorld defaultConfig defaultSys none
        "drizzle_cube_meta" none).1
      = errorEnvelope "API error (400): bad request" ∧
    (handleToolCall badRequestWorld defaultConfig defaultSys none
        "drizzle_cube_meta" none).2.2.length = 1 :=
  c7_http_error_envelope badRequestWorld defaultConfig defaultSys none none
    { status := 400, bodyText := "bad request", bodyJson := .error "Unexpected token" }
    "/cubejs-api/v1/meta" .get none rfl rfl rfl

/-- C8: a 200 upstream response with a parsed JSON body makes the
`drizzle_cube_meta` tool call return the envelope whose single `text`
item is the pretty-printed JSON of that body, with no `isError` field
set. -/
theorem c8_success_pretty_envelope (w : World) (cfg : Config) (sys : SysInfo)
    (s : Option Unit) (args : Option Json) (resp : HttpResp) (j : Json)
    (hfetch : w.fetch (cfg.serverUrl ++ "/cubejs-api/v1/meta") .get none = .ok resp)
    (hstatus : resp.status = 200) (hjson : resp.bodyJson = .ok j) :
    (handleToolCall w cfg sys s "drizzle_cube_meta" args).1 = jsonTextEnvelope j ∧
    (jsonTextEnvelope j).content
      = [{ type := "text", text := .str (stringifyPretty j) }] ∧
    (jsonTextEnvelope j).isError = none := by
  have hok : resp.ok = true := by simp [HttpResp.ok, hstatus]
  have ha : (apiRequest w cfg "/cubejs-api/v1/meta" .get none).1 = .ok j := by
    simp [apiRequest, hfetch, hok, hjson]
  have hi : handleInner w cfg sys s "drizzle_cube_meta" args
      = ((apiRequest w cfg "/cubejs-api/v1/meta" .get none).1.map jsonTextEnvelope, s,
         (apiRequest w cfg "/cubejs-api/v1/meta" .get none).2) := rfl
  refine ⟨?_, rfl, rfl⟩
  unfold handleToolCall
  rw [hi, ha]
  simp [Except.map]

/-- C8 witness: body `\x7b"a":1\x7d` comes back pretty-printed over
three lines with two-space indentation and no `isError` field. -/
theorem c8_witness :
    ((handleToolCall okJsonWorld defaultConfig defaultSys none
        "drizzle_cube_meta" none).1 = jsonTextEnvelope (.obj [("a", .num 1)]) ∧
    (jsonTextEnvelope (.obj [("a", .num 1)])).content
      = [{ type := "text", text := .str (stringifyPretty (.obj [("a", .num 1)])) }] ∧
    (jsonTextEnvelope (.obj [("a", .num 1)])).isError = none) ∧
    stringifyPretty (.obj [("a", .num 1)]) = "\x7b\n  \"a\": 1\n\x7d" :=
  ⟨c8_success_pretty_envelope okJsonWorld defaultConfig defaultSys none none
     { status := 200, bodyText := "\x7b\"a\":1\x7d", bodyJson := .ok (.obj [("a", .num 1)]) }
     (.obj [("a", .num 1)]) rfl rfl rfl,
   by
    simp [stringifyPretty, stringifyAt, stringifyFields, indentStr, escapeJsonString,
      escapeJsonChar]
    rfl⟩

end DrizzleCube
